import Mathlib

/-!
Shallow embedding of the `ix-date-input` component
(`packages/core/src/components/date-input/date-input.tsx`) and of the
overlay coordinator (`dropdownController`) it collaborates with.

Stateful component code becomes explicit state passing on `DateInput`;
event emissions (`valueChange.emit`, `validityStateChange.emit`) and the
calls into the overlay coordinator become an ordered trace of `Action`s
returned next to the new state.  The luxon `DateTime.fromFormat`
collaborator is kept abstract (`FromFormat`); JavaScript `<`/`>` on
`DateTime` values goes through `valueOf`, which is `NaN` for an invalid
`DateTime`, and every comparison against `NaN` is `false` — `dtLt`
embeds exactly that.
-/

namespace Ix

/-- Result of `DateTime.fromFormat`: a valid instant (its `valueOf`
millisecond timestamp) or an invalid marker carrying `invalidReason`. -/
inductive ParseResult where
  | valid (millis : Int)
  | invalid (reason : String)
deriving DecidableEq, Repr

/-- `date.isValid` of luxon. -/
def ParseResult.isValid : ParseResult → Bool
  | .valid _ => true
  | .invalid _ => false

/-- `date.invalidReason` of luxon: `null` (here `none`) on a valid
`DateTime`, the reason string otherwise. -/
def ParseResult.invalidReason : ParseResult → Option String
  | .valid _ => none
  | .invalid r => some r

/-- JavaScript `a < b` on two luxon `DateTime`s: compares the `valueOf`
numbers; an invalid `DateTime` has `valueOf = NaN` and every comparison
involving `NaN` is `false`. -/
def dtLt : ParseResult → ParseResult → Bool
  | .valid a, .valid b => decide (a < b)
  | _, _ => false

/-- The Format/Parse collaborator: `(raw, pattern) ↦ parse result`.
Deterministic and side-effect free, as a plain function. -/
abbrev FromFormat := String → String → ParseResult

/-- JavaScript `x || undefined` on `string | undefined`: the empty
string is falsy and collapses to `undefined`. -/
def jsOrUndefined : Option String → Option String
  | some s => if s = "" then none else some s
  | none => none

/-- JavaScript truthiness of a `string | undefined` value
(`!!v`): `undefined` and `""` are falsy. -/
def truthyStr : Option String → Bool
  | none => false
  | some s => !(s = "")

/-! ## Overlay coordinator

Modelled from the spec: the `dropdownController` singleton lives in
`packages/core/src/components/dropdown/dropdown-controller`, which is
not part of the sources under verification; the spec describes it as a
process-wide registry of overlay registrations keyed by identifier with
`present` / `dismiss` / `dismissAll`, `present` and `dismiss` being
no-ops on an unknown identifier. -/

/-- Modelled from the spec: one entry of the coordinator registry —
identifier plus current visibility flag (the trigger-element reference
carries no logic and is omitted). -/
structure OverlayRegistration where
  id : String
  visible : Bool
deriving DecidableEq, Repr

/-- Modelled from the spec: the coordinator's process-wide registry,
keyed by identifier. -/
abbrev Registry := List OverlayRegistration

/-- Modelled from the spec: `getDropdownById` — look an overlay up by
its identifier. -/
def getDropdownById (reg : Registry) (id : String) : Option OverlayRegistration :=
  reg.find? (fun o => o.id = id)

/-- Modelled from the spec: `present` marks the registered overlay with
this identifier visible and is a no-op when the identifier is unknown. -/
def present : Registry → String → Registry
  | [], _ => []
  | o :: rest, id =>
    if o.id = id then { o with visible := true } :: rest
    else o :: present rest id

/-- Modelled from the spec: `dismiss` marks the registered overlay with
this identifier not visible and is a no-op when the identifier is
unknown. -/
def dismiss : Registry → String → Registry
  | [], _ => []
  | o :: rest, id =>
    if o.id = id then { o with visible := false } :: rest
    else o :: dismiss rest id

/-- Modelled from the spec: `dismissAll` marks every registered overlay
not visible. -/
def dismissAll (reg : Registry) : Registry :=
  reg.map (fun o => { o with visible := false })

/-- Modelled from the spec: one driver step of the coordinator — the
component's `openDropdown` sequence (a `dismissAll` followed by a
conditional lookup-and-`present`, exactly the body of
`DateInput.openDropdown`) or a bare `dismissAll`. -/
inductive CoordOp where
  | openDd (attrId : Option String)
  | dismissAllOp
deriving DecidableEq, Repr

/-- Run one coordinator driver step on the registry. -/
def applyCoordOp (reg : Registry) : CoordOp → Registry
  | .openDd attrId =>
    let reg₁ := dismissAll reg
    match attrId with
    | none => reg₁
    | some id =>
      match getDropdownById reg₁ id with
      | none => reg₁
      | some _ => present reg₁ id
  | .dismissAllOp => dismissAll reg

/-- Run a sequence of coordinator driver steps. -/
def applyCoordOps (reg : Registry) (ops : List CoordOp) : Registry :=
  ops.foldl applyCoordOp reg

/-- Number of overlays currently visible in the registry. -/
def visibleCount (reg : Registry) : Nat :=
  (reg.filter (fun o => o.visible)).length

/-- The at-most-one-open invariant. -/
def atMostOneVisible (reg : Registry) : Prop :=
  visibleCount reg ≤ 1

/-! ## Observable actions

The trace of one operation, in program order.  `recomputeValidity` marks
the synchronous write of `isInputInvalid` (line
`this.isInputInvalid = ...` of `onInput`); the other constructors are
the event emissions and the coordinator calls. -/

/-- One observable action of the component. -/
inductive Action where
  | valueChange (value : Option String)
  | validityStateChange (patternMismatch : Bool) (invalidReason : Option String)
  | recomputeValidity (isInputInvalid : Bool)
  | dismissCall (id : String)
  | presentCall (id : String)
deriving DecidableEq, Repr

def Action.isRecompute : Action → Bool
  | .recomputeValidity _ => true
  | _ => false

def Action.isValueChange : Action → Bool
  | .valueChange _ => true
  | _ => false

def Action.isDismissCall : Action → Bool
  | .dismissCall _ => true
  | _ => false

def Action.isValidityStateChange : Action → Bool
  | .validityStateChange _ _ => true
  | _ => false

/-! ## Component state -/

/-- The state of one `ix-date-input` instance, together with the
process-wide coordinator registry it mutates through
`openDropdown` / `closeDropdown`.  `value` is the raw `value` prop
(`string | undefined`), `formValue` the value last passed to
`formInternals.setFormValue` (`none` = `null`), `dropdownId` the
`data-ix-dropdown` attribute of this field's dropdown element, and
`«from»` the three-valued `from` state
(`none` = `undefined`, `some none` = `null`, `some (some s)` = `s`). -/
structure DateInput where
  value : Option String
  formValue : Option String
  minDate : String
  maxDate : String
  format : String
  required : Bool
  isInputInvalid : Bool
  isInvalid : Bool
  isValid : Bool
  isInfo : Bool
  isWarning : Bool
  invalidReason : Option String
  «from» : Option (Option String)
  touched : Bool
  registry : Registry
  dropdownId : Option String
deriving DecidableEq, Repr

/-- `updateFormInternalValue`: a truthy value is written to the form
internals, otherwise `null` is written; the `value` prop is set either
way. -/
def updateFormInternalValue (s : DateInput) (value : Option String) : DateInput :=
  if truthyStr value then { s with formValue := value, value := value }
  else { s with formValue := none, value := value }

/-- `hasValidValue`: resolves `!!this.value`. -/
def hasValidValue (s : DateInput) : Bool :=
  truthyStr s.value

/-- The `ValidityState` record built by `getValidityState`. -/
structure ValidityState where
  badInput : Bool
  customError : Bool
  patternMismatch : Bool
  rangeOverflow : Bool
  rangeUnderflow : Bool
  stepMismatch : Bool
  tooLong : Bool
  tooShort : Bool
  typeMismatch : Bool
  valid : Bool
  valueMissing : Bool
deriving DecidableEq, Repr

/-- `getValidityState`: every field constant except `patternMismatch`,
`valid` and `valueMissing`. -/
def getValidityState (s : DateInput) : ValidityState where
  badInput := false
  customError := false
  patternMismatch := s.isInputInvalid
  rangeOverflow := false
  rangeUnderflow := false
  stepMismatch := false
  tooLong := false
  tooShort := false
  typeMismatch := false
  valid := !s.isInputInvalid
  valueMissing := s.required && !(truthyStr s.value)

/-- `closeDropdown`: read the `data-ix-dropdown` attribute, return if it
is missing or unregistered, else dismiss this field's overlay. -/
def closeDropdown (s : DateInput) : DateInput × List Action :=
  match s.dropdownId with
  | none => (s, [])
  | some id =>
    match getDropdownById s.registry id with
    | none => (s, [])
    | some _ => ({ s with registry := dismiss s.registry id }, [.dismissCall id])

/-- `openDropdown`: `dismissAll` runs first, then the attribute and the
registry lookup are checked and, when both succeed, the overlay is
presented. -/
def openDropdown (s : DateInput) : DateInput × List Action :=
  let s₁ := { s with registry := dismissAll s.registry }
  match s₁.dropdownId with
  | none => (s₁, [])
  | some id =>
    match getDropdownById s₁.registry id with
    | none => (s₁, [])
    | some _ => ({ s₁ with registry := present s₁.registry id }, [.presentCall id])

/-- The `@Watch('isInputInvalid')` callback `onInputValidationChange`:
fires exactly when the assigned flag differs from the previous one and
emits `{patternMismatch, invalidReason}` read from the state at that
point. -/
def watchEmit (changed : Bool) (s : DateInput) : List Action :=
  if changed then
    [.validityStateChange (getValidityState s).patternMismatch s.invalidReason]
  else []

/-- `onInput`, the single `setValue` path: a falsy value only emits
`valueChange`; an empty format returns silently; otherwise the value and
both bounds are parsed, `isInputInvalid` is recomputed, the invalid
branch records `invalidReason` and clears `from` while the valid branch
commits the value and dismisses this field's dropdown, and `valueChange`
is emitted with the given value.  The `validityStateChange` emission of
the `isInputInvalid` watcher is appended when the flag changed. -/
def onInput (P : FromFormat) (s : DateInput) (value : Option String) :
    DateInput × List Action :=
  let s₀ := { s with value := value }
  if !truthyStr value then
    (s₀, [.valueChange value])
  else if s₀.format = "" then
    (s₀, [])
  else
    let v := value.getD ""
    let date := P v s₀.format
    let minD := P s₀.minDate s₀.format
    let maxD := P s₀.maxDate s₀.format
    let inv := !date.isValid || dtLt date minD || dtLt maxD date
    let changed := s₀.isInputInvalid != inv
    let s₁ := { s₀ with isInputInvalid := inv }
    if inv then
      let s₂ := { s₁ with invalidReason := jsOrUndefined date.invalidReason,
                          «from» := none }
      (s₂, [.recomputeValidity inv, .valueChange value] ++ watchEmit changed s₂)
    else
      let s₂ := updateFormInternalValue s₁ value
      let c := closeDropdown s₂
      (c.1, [.recomputeValidity inv, .valueChange value]
              ++ watchEmit changed s₂ ++ c.2)

/-! ## A concrete Format/Parse collaborator instance

Modelled from the spec: the Format/Parse Collaborator itself (luxon) is
an external, opaque dependency; for concrete scenarios the spec fixes
the pattern `yyyy/LL/dd` and invalid-calendar-date behaviour
(Scenario A: `2024/02/30` is unparsable).  `fromFormatModel` implements
exactly that pattern: four digits, slash, two digits, slash, two digits,
with real calendar bounds on month and day; valid dates map to a
timestamp that is strictly monotone in (year, month, day). -/

/-- Numeric value of a decimal digit character. -/
def digitVal (c : Char) : Nat := c.toNat - 48

/-- Gregorian leap-year rule. -/
def isLeapYear (y : Nat) : Bool :=
  y % 4 = 0 && (!(y % 100 = 0) || y % 400 = 0)

/-- Days in a month of the proleptic Gregorian calendar. -/
def daysInMonth (y m : Nat) : Nat :=
  if m = 2 then (if isLeapYear y then 29 else 28)
  else if m = 4 || m = 6 || m = 9 || m = 11 then 30
  else 31

/-- A timestamp strictly monotone in the lexicographic (year, month,
day) order of valid dates (`m ≤ 12` gives `m * 32 + d < 500`). -/
def dateOrdinal (y m d : Nat) : Int :=
  (y * 500 + m * 32 + d : Nat)

/-- Parse a string against the fixed pattern `yyyy/LL/dd` with calendar
validation; the reason strings mirror luxon's (`unparsable` for a
pattern mismatch, `unit out of range` for an impossible calendar
date). -/
def parseYMD (raw : String) : ParseResult :=
  match raw.data with
  | [y1, y2, y3, y4, sl1, m1, m2, sl2, d1, d2] =>
    if sl1 = '/' && sl2 = '/'
        && ([y1, y2, y3, y4, m1, m2, d1, d2].all Char.isDigit) then
      let y := ((digitVal y1 * 10 + digitVal y2) * 10 + digitVal y3) * 10 + digitVal y4
      let m := digitVal m1 * 10 + digitVal m2
      let d := digitVal d1 * 10 + digitVal d2
      if 1 ≤ m && m ≤ 12 && 1 ≤ d && d ≤ daysInMonth y m then
        .valid (dateOrdinal y m d)
      else .invalid "unit out of range"
    else .invalid "unparsable"
  | _ => .invalid "unparsable"

/-- The concrete collaborator: `yyyy/LL/dd` is the only pattern the
concrete scenarios use; any other pattern rejects. -/
def fromFormatModel : FromFormat := fun raw fmt =>
  if fmt = "yyyy/LL/dd" then parseYMD raw else .invalid "unparsable"

/-- The external-validation inputs handed to `hookValidationLifecycle`. -/
structure ValidationResults where
  isInfo : Bool
  isInvalid : Bool
  isInvalidByRequired : Bool
  isValid : Bool
  isWarning : Bool
deriving DecidableEq, Repr

/-- `hookValidationLifecycle`: `isInvalid` becomes the disjunction of
the external flag, the required flag and `isInputInvalid`; the other
categories are copied.  The body emits nothing, hence the empty trace. -/
def hookValidationLifecycle (s : DateInput) (r : ValidationResults) :
    DateInput × List Action :=
  ({ s with isInvalid := r.isInvalid || r.isInvalidByRequired || s.isInputInvalid,
            isInfo := r.isInfo, isValid := r.isValid, isWarning := r.isWarning }, [])

/-- `checkClassList`: `isInvalid` is recomputed solely from whether the
host element's class list contains `ix-invalid`. -/
def checkClassList (s : DateInput) (classList : List String) : DateInput :=
  { s with isInvalid := classList.contains "ix-invalid" }

/-! ## Concrete states for the scenarios -/

/-- A field with an earlier committed valid value, no bounds, the
default format, and a mounted, currently visible dropdown `dd-1`. -/
def exampleState : DateInput where
  value := some "2024/01/10"
  formValue := some "2024/01/10"
  minDate := ""
  maxDate := ""
  format := "yyyy/LL/dd"
  required := false
  isInputInvalid := false
  isInvalid := false
  isValid := false
  isInfo := false
  isWarning := false
  invalidReason := none
  «from» := some (some "2024/01/10")
  touched := false
  registry := [⟨"dd-1", true⟩]
  dropdownId := some "dd-1"

/-- `exampleState` restricted to the year 2024 (Scenario B bounds). -/
def rangeState : DateInput :=
  { exampleState with minDate := "2024/01/01", maxDate := "2024/12/31" }

/-- A field whose dropdown attribute names an identifier that was never
registered, while some other overlay `A` is registered and visible. -/
def strayState : DateInput :=
  { exampleState with registry := [⟨"A", true⟩], dropdownId := some "X" }

/-- Number of `validityStateChange` emissions in a trace. -/
def countValidityEmissions (l : List Action) : Nat :=
  (l.filter (fun a => a.isValidityStateChange)).length

/-! ## Branch characterizations of `onInput` -/

/-- A falsy value (cleared input or programmatic `undefined`) short
circuits: the raw value is stored and `valueChange` fires with exactly
the given value; nothing else changes. -/
theorem onInput_falsy_eq (P : FromFormat) (s : DateInput) (v : Option String)
    (hv : truthyStr v = false) :
    onInput P s v = ({ s with value := v }, [Action.valueChange v]) := by
  simp [onInput, hv]

/-- With an empty format string, a truthy input only stores the raw
value and returns silently. -/
theorem onInput_noFormat_eq (P : FromFormat) (s : DateInput) (v : Option String)
    (hv : truthyStr v = true) (hf : s.format = "") :
    onInput P s v = ({ s with value := v }, []) := by
  simp [onInput, hv, hf]

/-- The invalid branch of `onInput`, fully characterized. -/
theorem onInput_invalid_eq (P : FromFormat) (s : DateInput) (v : String)
    (hv : v ≠ "") (hf : s.format ≠ "")
    (hinv : (!(P v s.format).isValid || dtLt (P v s.format) (P s.minDate s.format)
              || dtLt (P s.maxDate s.format) (P v s.format)) = true) :
    onInput P s (some v) =
      ({ s with value := some v, isInputInvalid := true,
                invalidReason := jsOrUndefined (P v s.format).invalidReason,
                «from» := none },
       [Action.recomputeValidity true, Action.valueChange (some v)]
         ++ watchEmit (s.isInputInvalid != true)
              { s with value := some v, isInputInvalid := true,
                       invalidReason := jsOrUndefined (P v s.format).invalidReason,
                       «from» := none }) := by
  simp [onInput, truthyStr, hv, hf, hinv]

/-- The valid branch of `onInput`, fully characterized: the value is
committed, this field's dropdown is closed, `valueChange` fires. -/
theorem onInput_valid_eq (P : FromFormat) (s : DateInput) (v : String)
    (hv : v ≠ "") (hf : s.format ≠ "")
    (hinv : (!(P v s.format).isValid || dtLt (P v s.format) (P s.minDate s.format)
              || dtLt (P s.maxDate s.format) (P v s.format)) = false) :
    onInput P s (some v) =
      ((closeDropdown { s with value := some v, isInputInvalid := false,
                               formValue := some v }).1,
       [Action.recomputeValidity false, Action.valueChange (some v)]
         ++ watchEmit (s.isInputInvalid != false)
              { s with value := some v, isInputInvalid := false,
                       formValue := some v }
         ++ (closeDropdown { s with value := some v, isInputInvalid := false,
                                    formValue := some v }).2) := by
  simp [onInput, truthyStr, hv, hf, hinv, updateFormInternalValue]

/-- `closeDropdown` when this field's dropdown is mounted and
registered. -/
theorem closeDropdown_registered_eq (s : DateInput) (id : String)
    (o : OverlayRegistration)
    (hid : s.dropdownId = some id) (hreg : getDropdownById s.registry id = some o) :
    closeDropdown s = ({ s with registry := dismiss s.registry id },
                       [Action.dismissCall id]) := by
  simp [closeDropdown, hid, hreg]

/-- The trace of `closeDropdown` is empty or a single dismiss call. -/
theorem closeDropdown_snd_cases (s : DateInput) :
    (closeDropdown s).2 = [] ∨ ∃ id, (closeDropdown s).2 = [Action.dismissCall id] := by
  cases hid : s.dropdownId with
  | none => exact Or.inl (by simp [closeDropdown, hid])
  | some id =>
    cases hreg : getDropdownById s.registry id with
    | none => exact Or.inl (by simp [closeDropdown, hid, hreg])
    | some o => exact Or.inr ⟨id, by simp [closeDropdown, hid, hreg]⟩

/-- `closeDropdown` never touches the validity-related fields. -/
theorem closeDropdown_fst_fields (t : DateInput) :
    (closeDropdown t).1.isInputInvalid = t.isInputInvalid
      ∧ (closeDropdown t).1.invalidReason = t.invalidReason
      ∧ (closeDropdown t).1.formValue = t.formValue
      ∧ (closeDropdown t).1.value = t.value := by
  cases hid : t.dropdownId with
  | none => simp [closeDropdown, hid]
  | some id =>
    cases hreg : getDropdownById t.registry id <;> simp [closeDropdown, hid, hreg]

/-- The trace of `closeDropdown` holds no `validityStateChange`. -/
theorem closeDropdown_no_validity_emission (t : DateInput) :
    countValidityEmissions (closeDropdown t).2 = 0 := by
  rcases closeDropdown_snd_cases t with h | ⟨id, h⟩ <;>
    simp [h, countValidityEmissions, Action.isValidityStateChange, List.filter]

/-- In a trace whose head is the only possible recompute marker, any
recompute occurrence sits strictly before any value-change or dismiss
occurrence. -/
theorem head_recompute_lt (x : Action) (l : List Action) (i j : Nat) (a b : Action)
    (htl : ∀ c ∈ l, c.isRecompute = false)
    (hx1 : x.isValueChange = false) (hx2 : x.isDismissCall = false)
    (hi : (x :: l)[i]? = some a) (hj : (x :: l)[j]? = some b)
    (ha : a.isRecompute = true)
    (hb : b.isValueChange = true ∨ b.isDismissCall = true) :
    i < j := by
  cases i with
  | zero =>
    cases j with
    | zero =>
      simp only [List.getElem?_cons_zero, Option.some.injEq] at hj
      subst hj
      rcases hb with hb | hb
      · rw [hx1] at hb; exact absurd hb (by simp)
      · rw [hx2] at hb; exact absurd hb (by simp)
    | succ j => exact Nat.succ_pos j
  | succ i =>
    rw [List.getElem?_cons_succ] at hi
    have hmem : a ∈ l := List.mem_iff_getElem?.mpr ⟨i, hi⟩
    rw [htl a hmem] at ha
    exact absurd ha (by simp)

/-! ## Coordinator lemmas -/

theorem visibleCount_dismissAll (reg : Registry) :
    visibleCount (dismissAll reg) = 0 := by
  induction reg with
  | nil => rfl
  | cons o rest ih =>
    simp [visibleCount, dismissAll, List.filter] at ih ⊢

theorem visibleCount_present_le (reg : Registry) (id : String) :
    visibleCount (present reg id) ≤ visibleCount reg + 1 := by
  induction reg with
  | nil => simp [present, visibleCount]
  | cons o rest ih =>
    by_cases h : o.id = id
    · cases hv : o.visible <;>
        simp [present, h, visibleCount, List.filter, hv]
    · cases hv : o.visible <;>
        · simp only [present, h, if_false, visibleCount, List.filter, hv] at ih ⊢
          simpa using Nat.succ_le_succ (by simpa [visibleCount] using ih)

/-- Every single coordinator driver step reestablishes the
at-most-one-open invariant, whatever the registry was before. -/
theorem atMostOne_applyCoordOp (reg : Registry) (op : CoordOp) :
    atMostOneVisible (applyCoordOp reg op) := by
  cases op with
  | dismissAllOp =>
    simp [applyCoordOp, atMostOneVisible, visibleCount_dismissAll]
  | openDd attrId =>
    cases attrId with
    | none => simp [applyCoordOp, atMostOneVisible, visibleCount_dismissAll]
    | some id =>
      cases hreg : getDropdownById (dismissAll reg) id with
      | none => simp [applyCoordOp, hreg, atMostOneVisible, visibleCount_dismissAll]
      | some o =>
        have h₁ := visibleCount_present_le (dismissAll reg) id
        have h₂ := visibleCount_dismissAll reg
        simp only [applyCoordOp, hreg, atMostOneVisible]
        omega

/-- `dismissAll` keeps every identifier: a lookup misses after it
exactly when it missed before. -/
theorem getDropdownById_dismissAll_none (reg : Registry) (id : String) :
    getDropdownById (dismissAll reg) id = none ↔ getDropdownById reg id = none := by
  induction reg with
  | nil => simp [dismissAll, getDropdownById]
  | cons o rest ih =>
    by_cases h : o.id = id <;>
      simp [dismissAll, getDropdownById, List.find?, h] at ih ⊢

/-- `present` with an identifier missing from the registry is the
identity. -/
theorem present_not_found (reg : Registry) (id : String)
    (h : getDropdownById reg id = none) :
    present reg id = reg := by
  induction reg with
  | nil => rfl
  | cons o rest ih =>
    simp only [getDropdownById, List.find?] at h
    by_cases ho : o.id = id
    · simp [ho] at h
    · simp only [present, ho, if_false]
      have := ih (by simpa [getDropdownById, ho] using h)
      rw [this]

/-! ## Claim theorems -/

/-- C1: for a non-empty input that is unparsable under the configured
format or whose parsed date lies outside the `[minDate, maxDate]`
window, `onInput` sets `isInputInvalid`, leaves the committed form value
unchanged at its previous value, and keeps the raw `value` prop at the
invalid text. -/
theorem onInput_invalid_preserves_committed (P : FromFormat) (s : DateInput)
    (v : String) (hv : v ≠ "") (hf : s.format ≠ "")
    (hinv : (P v s.format).isValid = false
        ∨ dtLt (P v s.format) (P s.minDate s.format) = true
        ∨ dtLt (P s.maxDate s.format) (P v s.format) = true) :
    (onInput P s (some v)).1.isInputInvalid = true
      ∧ (onInput P s (some v)).1.formValue = s.formValue
      ∧ (onInput P s (some v)).1.value = some v := by
  have hb : (!(P v s.format).isValid || dtLt (P v s.format) (P s.minDate s.format)
      || dtLt (P s.maxDate s.format) (P v s.format)) = true := by
    rcases hinv with h | h | h <;> simp [h]
  rw [onInput_invalid_eq P s v hv hf hb]
  simp

/-- Witness for C1 at Scenario A: the invalid calendar date
`2024/02/30` entered over the committed value `2024/01/10`. -/
theorem onInput_invalid_preserves_committed_witness :
    (("2024/02/30" : String) ≠ "" ∧ exampleState.format ≠ ""
      ∧ ((fromFormatModel "2024/02/30" exampleState.format).isValid = false
          ∨ dtLt (fromFormatModel "2024/02/30" exampleState.format)
              (fromFormatModel exampleState.minDate exampleState.format) = true
          ∨ dtLt (fromFormatModel exampleState.maxDate exampleState.format)
              (fromFormatModel "2024/02/30" exampleState.format) = true))
    ∧ ((onInput fromFormatModel exampleState (some "2024/02/30")).1.isInputInvalid = true
      ∧ (onInput fromFormatModel exampleState (some "2024/02/30")).1.formValue
          = exampleState.formValue
      ∧ (onInput fromFormatModel exampleState (some "2024/02/30")).1.value
          = some "2024/02/30") :=
  ⟨⟨by decide, by decide, by decide⟩,
    onInput_invalid_preserves_committed fromFormatModel exampleState "2024/02/30"
      (by decide) (by decide) (by decide)⟩

/-- C2: a non-empty input that parses and lies within the bounds clears
`isInputInvalid`, commits the value to the form internals, dismisses
this field's registered dropdown, and emits `valueChange` with the new
value. -/
theorem onInput_valid_commits_and_closes (P : FromFormat) (s : DateInput)
    (v id : String) (o : OverlayRegistration)
    (hv : v ≠ "") (hf : s.format ≠ "")
    (hok : (P v s.format).isValid = true)
    (hmin : dtLt (P v s.format) (P s.minDate s.format) = false)
    (hmax : dtLt (P s.maxDate s.format) (P v s.format) = false)
    (hid : s.dropdownId = some id)
    (hreg : getDropdownById s.registry id = some o) :
    (onInput P s (some v)).1.isInputInvalid = false
      ∧ (onInput P s (some v)).1.formValue = some v
      ∧ (onInput P s (some v)).1.registry = dismiss s.registry id
      ∧ Action.valueChange (some v) ∈ (onInput P s (some v)).2 := by
  have hb : (!(P v s.format).isValid || dtLt (P v s.format) (P s.minDate s.format)
      || dtLt (P s.maxDate s.format) (P v s.format)) = false := by
    simp [hok, hmin, hmax]
  rw [onInput_valid_eq P s v hv hf hb]
  rw [closeDropdown_registered_eq _ id o (by simpa using hid) (by simpa using hreg)]
  simp

/-- Witness for C2: entering `2024/03/05` over `exampleState`, whose
dropdown `dd-1` is registered and visible. -/
theorem onInput_valid_commits_and_closes_witness :
    (("2024/03/05" : String) ≠ "" ∧ exampleState.format ≠ ""
      ∧ (fromFormatModel "2024/03/05" exampleState.format).isValid = true
      ∧ dtLt (fromFormatModel "2024/03/05" exampleState.format)
          (fromFormatModel exampleState.minDate exampleState.format) = false
      ∧ dtLt (fromFormatModel exampleState.maxDate exampleState.format)
          (fromFormatModel "2024/03/05" exampleState.format) = false
      ∧ exampleState.dropdownId = some "dd-1"
      ∧ getDropdownById exampleState.registry "dd-1" = some ⟨"dd-1", true⟩)
    ∧ ((onInput fromFormatModel exampleState (some "2024/03/05")).1.isInputInvalid = false
      ∧ (onInput fromFormatModel exampleState (some "2024/03/05")).1.formValue
          = some "2024/03/05"
      ∧ (onInput fromFormatModel exampleState (some "2024/03/05")).1.registry
          = dismiss exampleState.registry "dd-1"
      ∧ Action.valueChange (some "2024/03/05")
          ∈ (onInput fromFormatModel exampleState (some "2024/03/05")).2) :=
  ⟨⟨by decide, by decide, by decide, by decide, by decide, by decide, by decide⟩,
    onInput_valid_commits_and_closes fromFormatModel exampleState "2024/03/05" "dd-1"
      ⟨"dd-1", true⟩ (by decide) (by decide) (by decide) (by decide) (by decide)
      (by decide) (by decide)⟩

/-- C5 counterexample: clearing the input to `""` after the previously
committed valid value emits `valueChange` carrying the empty string, not
`undefined`. -/
theorem onInput_cleared_emits_empty_string :
    (onInput fromFormatModel exampleState (some "")).2
        = [Action.valueChange (some "")]
      ∧ Action.valueChange none ∉ (onInput fromFormatModel exampleState (some "")).2 := by
  decide

/-- C5 amended: a falsy input (cleared text or programmatic
`undefined`) stores the raw value, leaves everything else — including
the committed form value — unchanged, and emits a single `valueChange`
carrying exactly the given value, so a cleared text input emits `""` and
only a programmatic set to `undefined` emits `undefined`. -/
theorem onInput_cleared_state_and_event (P : FromFormat) (s : DateInput)
    (v : Option String) (hv : truthyStr v = false) :
    onInput P s v = ({ s with value := v }, [Action.valueChange v]) :=
  onInput_falsy_eq P s v hv

/-- Witness for the amended C5: clearing `exampleState` to `""`. -/
theorem onInput_cleared_state_and_event_witness :
    truthyStr (some "") = false
      ∧ onInput fromFormatModel exampleState (some "")
          = ({ exampleState with value := some "" }, [Action.valueChange (some "")]) :=
  ⟨by decide,
    onInput_cleared_state_and_event fromFormatModel exampleState (some "") (by decide)⟩

/-- C6 counterexample, Scenario B: `2023/12/31` under bounds
`[2024/01/01, 2024/12/31]` enters the invalid state with
`invalidReason = none` — no non-empty range-error reason is recorded,
because luxon's `invalidReason` is `null` on a parseable date. -/
theorem rangeError_records_no_reason :
    (onInput fromFormatModel rangeState (some "2023/12/31")).1.isInputInvalid = true
      ∧ (onInput fromFormatModel rangeState (some "2023/12/31")).1.invalidReason
          = none := by
  decide

/-- C6 amended: entering the invalid state records the parse-failure
reason for an unparsable input, but records no reason (`undefined`) for
a parseable value outside `[minDate, maxDate]`; both cases run through
the same branch of `onInput`. -/
theorem invalid_reason_recording (P : FromFormat) (s : DateInput) (v : String)
    (hv : v ≠ "") (hf : s.format ≠ "") :
    (∀ r, P v s.format = .invalid r → r ≠ "" →
        (onInput P s (some v)).1.isInputInvalid = true
          ∧ (onInput P s (some v)).1.invalidReason = some r)
    ∧ ∀ m, P v s.format = .valid m →
        (dtLt (P v s.format) (P s.minDate s.format) = true
          ∨ dtLt (P s.maxDate s.format) (P v s.format) = true) →
        (onInput P s (some v)).1.isInputInvalid = true
          ∧ (onInput P s (some v)).1.invalidReason = none := by
  constructor
  · intro r hr hre
    have hb : (!(P v s.format).isValid || dtLt (P v s.format) (P s.minDate s.format)
        || dtLt (P s.maxDate s.format) (P v s.format)) = true := by
      simp [hr, ParseResult.isValid]
    rw [onInput_invalid_eq P s v hv hf hb]
    simp [hr, ParseResult.invalidReason, jsOrUndefined, hre]
  · intro m hm hrange
    have hb : (!(P v s.format).isValid || dtLt (P v s.format) (P s.minDate s.format)
        || dtLt (P s.maxDate s.format) (P v s.format)) = true := by
      rcases hrange with h | h <;> simp [h]
    rw [onInput_invalid_eq P s v hv hf hb]
    simp [hm, ParseResult.invalidReason, jsOrUndefined]

/-- Witness for the amended C6: Scenario A (reason `unit out of range`
recorded) and Scenario B (no reason recorded). -/
theorem invalid_reason_recording_witness :
    (("2024/02/30" : String) ≠ "" ∧ exampleState.format ≠ ""
      ∧ fromFormatModel "2024/02/30" exampleState.format
          = ParseResult.invalid "unit out of range"
      ∧ ("unit out of range" : String) ≠ ""
      ∧ ("2023/12/31" : String) ≠ "" ∧ rangeState.format ≠ ""
      ∧ fromFormatModel "2023/12/31" rangeState.format = ParseResult.valid 1011915
      ∧ dtLt (fromFormatModel "2023/12/31" rangeState.format)
          (fromFormatModel rangeState.minDate rangeState.format) = true)
    ∧ ((onInput fromFormatModel exampleState (some "2024/02/30")).1.isInputInvalid = true
      ∧ (onInput fromFormatModel exampleState (some "2024/02/30")).1.invalidReason
          = some "unit out of range")
    ∧ ((onInput fromFormatModel rangeState (some "2023/12/31")).1.isInputInvalid = true
      ∧ (onInput fromFormatModel rangeState (some "2023/12/31")).1.invalidReason
          = none) :=
  ⟨by decide,
    (invalid_reason_recording fromFormatModel exampleState "2024/02/30"
        (by decide) (by decide)).1 "unit out of range" (by decide) (by decide),
    (invalid_reason_recording fromFormatModel rangeState "2023/12/31"
        (by decide) (by decide)).2 1011915 (by decide) (Or.inl (by decide))⟩

/-- C10: `hasValidValue` is exactly JavaScript truthiness of the raw
`value` prop, and after a failed parse the prop retains the non-empty
invalid text, so `hasValidValue` reports `true` even in the invalid
state. -/
theorem hasValidValue_truthy_even_when_invalid :
    (∀ t : DateInput, hasValidValue t = true ↔ ∃ x, t.value = some x ∧ x ≠ "")
    ∧ ∀ (P : FromFormat) (s : DateInput) (v : String), v ≠ "" → s.format ≠ "" →
        ((P v s.format).isValid = false
          ∨ dtLt (P v s.format) (P s.minDate s.format) = true
          ∨ dtLt (P s.maxDate s.format) (P v s.format) = true) →
        (onInput P s (some v)).1.isInputInvalid = true
          ∧ hasValidValue (onInput P s (some v)).1 = true := by
  constructor
  · intro t
    cases h : t.value with
    | none => simp [hasValidValue, truthyStr, h]
    | some x => by_cases hx : x = "" <;> simp [hasValidValue, truthyStr, h, hx]
  · intro P s v hv hf hinv
    have hb : (!(P v s.format).isValid || dtLt (P v s.format) (P s.minDate s.format)
        || dtLt (P s.maxDate s.format) (P v s.format)) = true := by
      rcases hinv with h | h | h <;> simp [h]
    rw [onInput_invalid_eq P s v hv hf hb]
    simp [hasValidValue, truthyStr, hv]

/-- C3 counterexample: a reachable state with `isInputInvalid = true`
(after entering `2024/02/30`) on which `checkClassList` — one of the two
operations recomputing `isInvalid` — sets `isInvalid` to `false` because
the host class list lacks `ix-invalid`, so parse invalidity does not
dominate there. -/
theorem checkClassList_ignores_parse_invalidity :
    (checkClassList (onInput fromFormatModel exampleState (some "2024/02/30")).1
        []).isInputInvalid = true
      ∧ (checkClassList (onInput fromFormatModel exampleState (some "2024/02/30")).1
        []).isInvalid = false := by
  decide

/-- C3 amended: under the validation-hook recomputation
(`hookValidationLifecycle`) parse/range invalidity dominates every
combination of external flags, but `checkClassList` recomputes
`isInvalid` solely from the host element's class list, ignoring
`isInputInvalid`. -/
theorem hook_parse_invalidity_dominates (s t : DateInput) (r : ValidationResults)
    (cl : List String) (h : s.isInputInvalid = true) :
    (hookValidationLifecycle s r).1.isInvalid = true
      ∧ (checkClassList t cl).isInvalid = cl.contains "ix-invalid" := by
  refine ⟨?_, rfl⟩
  simp [hookValidationLifecycle, h]

/-- Witness for the amended C3: all external flags `false` cannot
override the parse invalidity reached through Scenario A. -/
theorem hook_parse_invalidity_dominates_witness :
    ((onInput fromFormatModel exampleState (some "2024/02/30")).1.isInputInvalid = true)
      ∧ ((hookValidationLifecycle
            (onInput fromFormatModel exampleState (some "2024/02/30")).1
            ⟨false, false, false, false, false⟩).1.isInvalid = true
        ∧ (checkClassList exampleState ["ix-invalid"]).isInvalid
            = (["ix-invalid"].contains "ix-invalid")) :=
  ⟨by decide,
    hook_parse_invalidity_dominates
      (onInput fromFormatModel exampleState (some "2024/02/30")).1 exampleState
      ⟨false, false, false, false, false⟩ ["ix-invalid"] (by decide)⟩

/-- C4: after any non-empty sequence of `openDropdown`-style steps
(each a `dismissAll` followed by a conditional lookup-and-present) and
bare `dismissAll`s, at most one overlay in the registry is visible; in
Scenario E, opening `A` then `B` leaves only `B` visible. -/
theorem coordinator_at_most_one_visible :
    (∀ (reg : Registry) (ops : List CoordOp), ops ≠ [] →
        atMostOneVisible (applyCoordOps reg ops))
    ∧ applyCoordOps [⟨"A", false⟩, ⟨"B", false⟩]
        [CoordOp.openDd (some "A"), CoordOp.openDd (some "B")]
        = [⟨"A", false⟩, ⟨"B", true⟩] := by
  constructor
  · intro reg ops
    induction ops generalizing reg with
    | nil => intro h; exact absurd rfl h
    | cons op rest ih =>
      intro _
      cases rest with
      | nil =>
        simpa [applyCoordOps, List.foldl_cons, List.foldl_nil]
          using atMostOne_applyCoordOp reg op
      | cons op₂ rest₂ =>
        simpa [applyCoordOps, List.foldl_cons]
          using ih (applyCoordOp reg op) (by simp)
  · decide

/-- Witness for C4: one open step repairs a registry that starts with
two visible overlays. -/
theorem coordinator_at_most_one_visible_witness :
    ([CoordOp.openDd (some "B")] ≠ ([] : List CoordOp))
      ∧ atMostOneVisible
          (applyCoordOps [⟨"A", true⟩, ⟨"B", true⟩] [CoordOp.openDd (some "B")]) :=
  ⟨by decide,
    coordinator_at_most_one_visible.1 [⟨"A", true⟩, ⟨"B", true⟩]
      [CoordOp.openDd (some "B")] (by decide)⟩

/-- C7 counterexample: `openDropdown` on `strayState`, whose attribute
names the never-registered identifier `X`, dismisses the visible overlay
`A` through its initial `dismissAll` — the registry does change. -/
theorem openDropdown_unknown_changes_registry :
    getDropdownById strayState.registry "X" = none
      ∧ strayState.dropdownId = some "X"
      ∧ (openDropdown strayState).1.registry ≠ strayState.registry := by
  decide

/-- C7 amended: `present` with an unknown identifier raises nothing and
leaves the registry unchanged; `openDropdown` whose attribute names an
unknown identifier presents nothing and emits nothing — its only
registry effect is the initial `dismissAll`, which may dismiss a
currently visible overlay. -/
theorem present_unknown_is_noop (reg : Registry) (id : String) (s : DateInput)
    (h : getDropdownById reg id = none)
    (hs : s.registry = reg) (hid : s.dropdownId = some id) :
    present reg id = reg
      ∧ (openDropdown s).1.registry = dismissAll reg
      ∧ (openDropdown s).2 = [] := by
  have hnone : getDropdownById (dismissAll reg) id = none :=
    (getDropdownById_dismissAll_none reg id).mpr h
  refine ⟨present_not_found reg id h, ?_, ?_⟩ <;>
    simp [openDropdown, hs, hid, hnone]

/-- Witness for the amended C7 on `strayState`. -/
theorem present_unknown_is_noop_witness :
    (getDropdownById strayState.registry "X" = none
      ∧ strayState.registry = strayState.registry
      ∧ strayState.dropdownId = some "X")
    ∧ (present strayState.registry "X" = strayState.registry
      ∧ (openDropdown strayState).1.registry = dismissAll strayState.registry
      ∧ (openDropdown strayState).2 = []) :=
  ⟨⟨by decide, rfl, by decide⟩,
    present_unknown_is_noop strayState.registry "X" strayState
      (by decide) rfl (by decide)⟩

/-- C8: `validityStateChange` is emitted exactly once when an
input-driven recomputation changes `isInputInvalid` and never otherwise
— in particular not on keystrokes that leave the flag unchanged — and
the external-hook recomputation emits nothing at all. -/
theorem validity_emitted_once_per_flag_change :
    (∀ (P : FromFormat) (s : DateInput) (v : Option String),
        countValidityEmissions (onInput P s v).2
          = if (onInput P s v).1.isInputInvalid = s.isInputInvalid then 0 else 1)
    ∧ ∀ (s : DateInput) (r : ValidationResults),
        countValidityEmissions (hookValidationLifecycle s r).2 = 0 := by
  constructor
  · intro P s v
    by_cases hv : truthyStr v = false
    · rw [onInput_falsy_eq P s v hv]
      simp [countValidityEmissions, Action.isValidityStateChange, List.filter]
    · have hv' : truthyStr v = true := by simpa using hv
      obtain ⟨x, rfl, hxe⟩ : ∃ x, v = some x ∧ x ≠ "" := by
        cases v with
        | none => simp [truthyStr] at hv'
        | some x => exact ⟨x, rfl, by simpa [truthyStr] using hv'⟩
      by_cases hf : s.format = ""
      · rw [onInput_noFormat_eq P s (some x) hv' hf]
        simp [countValidityEmissions, List.filter]
      · by_cases hb : (!(P x s.format).isValid
            || dtLt (P x s.format) (P s.minDate s.format)
            || dtLt (P s.maxDate s.format) (P x s.format)) = true
        · rw [onInput_invalid_eq P s x hxe hf hb]
          cases hsi : s.isInputInvalid <;>
            simp [countValidityEmissions, watchEmit, hsi,
              Action.isValidityStateChange, List.filter]
        · rw [onInput_valid_eq P s x hxe hf (by simpa using hb)]
          have hfields := (closeDropdown_fst_fields
            { s with value := some x, isInputInvalid := false,
                     formValue := some x }).1
          rcases closeDropdown_snd_cases
              { s with value := some x, isInputInvalid := false,
                       formValue := some x } with hcl | ⟨id, hcl⟩ <;>
            rw [hcl] <;>
            cases hsi : s.isInputInvalid <;>
              simp [countValidityEmissions, hfields, hsi, watchEmit,
                Action.isValidityStateChange, List.filter]
  · intro s r
    simp [hookValidationLifecycle, countValidityEmissions, List.filter]

/-- C9: in the program-order trace of one input-driven update, the
synchronous recomputation of `isInputInvalid` strictly precedes both the
`valueChange` emission and the dropdown dismiss call. -/
theorem recompute_precedes_value_event_and_dismiss (P : FromFormat) (s : DateInput)
    (v : Option String) (i j : Nat) (a b : Action)
    (hi : ((onInput P s v).2)[i]? = some a) (hj : ((onInput P s v).2)[j]? = some b)
    (ha : a.isRecompute = true)
    (hb : b.isValueChange = true ∨ b.isDismissCall = true) :
    i < j := by
  by_cases hv : truthyStr v = false
  · rw [onInput_falsy_eq P s v hv] at hi
    cases i with
    | zero =>
      simp only [List.getElem?_cons_zero, Option.some.injEq] at hi
      subst hi
      exact absurd ha (by simp [Action.isRecompute])
    | succ i =>
      rw [List.getElem?_cons_succ] at hi
      simp at hi
  · have hv' : truthyStr v = true := by simpa using hv
    obtain ⟨x, rfl, hxe⟩ : ∃ x, v = some x ∧ x ≠ "" := by
      cases v with
      | none => simp [truthyStr] at hv'
      | some x => exact ⟨x, rfl, by simpa [truthyStr] using hv'⟩
    by_cases hf : s.format = ""
    · rw [onInput_noFormat_eq P s (some x) hv' hf] at hi
      simp at hi
    · by_cases hbr : (!(P x s.format).isValid
          || dtLt (P x s.format) (P s.minDate s.format)
          || dtLt (P s.maxDate s.format) (P x s.format)) = true
      · rw [onInput_invalid_eq P s x hxe hf hbr] at hi hj
        simp only [List.cons_append, List.nil_append] at hi hj
        refine head_recompute_lt (Action.recomputeValidity true) _ i j a b
          ?_ rfl rfl hi hj ha hb
        intro c hc
        rcases List.mem_cons.mp hc with rfl | hc
        · rfl
        · unfold watchEmit at hc
          split at hc
          · rcases List.mem_singleton.mp hc with rfl; rfl
          · simp at hc
      · rw [onInput_valid_eq P s x hxe hf (by simpa using hbr)] at hi hj
        simp only [List.cons_append, List.nil_append, List.append_assoc] at hi hj
        refine head_recompute_lt (Action.recomputeValidity false) _ i j a b
          ?_ rfl rfl hi hj ha hb
        intro c hc
        rcases List.mem_cons.mp hc with rfl | hc
        · rfl
        · rcases List.mem_append.mp hc with hc | hc
          · unfold watchEmit at hc
            split at hc
            · rcases List.mem_singleton.mp hc with rfl; rfl
            · simp at hc
          · rcases closeDropdown_snd_cases
                { s with value := some x, isInputInvalid := false,
                         formValue := some x } with hcl | ⟨id, hcl⟩ <;>
              rw [hcl] at hc
            · simp at hc
            · rcases List.mem_singleton.mp hc with rfl; rfl

/-- Witness for C9: on the valid input `2024/03/05` the trace is
recompute, then `valueChange`, then the dismiss call, so index 0
precedes index 2. -/
theorem recompute_precedes_value_event_and_dismiss_witness :
    ((onInput fromFormatModel exampleState (some "2024/03/05")).2[0]?
        = some (Action.recomputeValidity false)
      ∧ (onInput fromFormatModel exampleState (some "2024/03/05")).2[2]?
        = some (Action.dismissCall "dd-1")
      ∧ (Action.recomputeValidity false).isRecompute = true
      ∧ ((Action.dismissCall "dd-1").isValueChange = true
          ∨ (Action.dismissCall "dd-1").isDismissCall = true))
    ∧ (0 : Nat) < 2 :=
  ⟨⟨by decide, by decide, by decide, Or.inr (by decide)⟩,
    recompute_precedes_value_event_and_dismiss fromFormatModel exampleState
      (some "2024/03/05") 0 2 (Action.recomputeValidity false)
      (Action.dismissCall "dd-1") (by decide) (by decide) (by decide)
      (Or.inr (by decide))⟩

/-- Witness for C10: after entering the unparsable `2024/02/30`,
`hasValidValue` still resolves `true`. -/
theorem hasValidValue_truthy_even_when_invalid_witness :
    (("2024/02/30" : String) ≠ "" ∧ exampleState.format ≠ ""
      ∧ (fromFormatModel "2024/02/30" exampleState.format).isValid = false)
    ∧ ((onInput fromFormatModel exampleState (some "2024/02/30")).1.isInputInvalid = true
      ∧ hasValidValue (onInput fromFormatModel exampleState (some "2024/02/30")).1
          = true) :=
  ⟨⟨by decide, by decide, by decide⟩,
    hasValidValue_truthy_even_when_invalid.2 fromFormatModel exampleState "2024/02/30"
      (by decide) (by decide) (Or.inl (by decide))⟩

end Ix
